import Mathlib

/-!
Verification of the clog leveled-logging package.

The Go source is shallowly embedded: `Level` is the Go `type Level int`;
`levelOfStr` mirrors the `switch` in `levelOfStr`; the `logger` struct and
`New` mirror the construction logic; each per-severity method is a pure
function from the logger, an environment (pid, clock, call-site resolver
result) and the message to the list of write events it emits (plus, for
Fatal, the exit status).  Messages are modelled as lists of strings (the
Go variadic `...interface{}` arguments after their default rendering).
-/

namespace Clog

/-- Go: `type Level int`. -/
abbrev Level := Int

/-- Go: `DisabledLevel Level = iota` (= 0). -/
def DisabledLevel : Level := 0

/-- Go: `ErrorLevel` (= 1). -/
def ErrorLevel : Level := 1

/-- Go: `WarnLevel` (= 2). -/
def WarnLevel : Level := 2

/-- Go: `InfoLevel` (= 3). -/
def InfoLevel : Level := 3

/-- Go: `DebugLevel` (= 4). -/
def DebugLevel : Level := 4

/-- Modelled from the spec: the `InvalidLevel` sentinel is referenced by the
tests (`testValidMap`) but its declaration is not among the source files;
the spec orders the set {Invalid, Disabled, Error, Warn, Info, Debug}
strictly increasing, and the source fixes `DisabledLevel = 0`, so the
sentinel sits below `DisabledLevel`. -/
def InvalidLevel : Level := -1

/-- The five defined levels, in increasing order. -/
def validLevels : List Level :=
  [DisabledLevel, ErrorLevel, WarnLevel, InfoLevel, DebugLevel]

/-- The error message produced by `levelOfStr` for an unrecognized string
(Go: `fmt.Errorf("invalid log level: %s; use one of: ...", s)`). -/
def levelErrMsg (s : String) : String :=
  "invalid log level: " ++ s ++ "; use one of: disabled | error | warning | info | debug "

/-- Go `levelOfStr`: `level := InfoLevel; switch s { ... default: return level, fmt.Errorf(...) }`.
Errors are modelled as `Option String` (the error message, `none` = nil). -/
def levelOfStr (s : String) : Level × Option String :=
  if s = "disabled" then (DisabledLevel, none)
  else if s = "error" then (ErrorLevel, none)
  else if s = "warning" then (WarnLevel, none)
  else if s = "info" then (InfoLevel, none)
  else if s = "debug" then (DebugLevel, none)
  else (InfoLevel, some (levelErrMsg s))

/-- Modelled from the spec: `Level.String` is exercised by the tests
(`TestLevelString`, `testValidMap`) but its implementation is not among the
source files.  Spec §4.1: inverse mapping for the five valid levels;
returns the empty string for Invalid and for any other out-of-range
integer value. -/
def levelString (l : Level) : String :=
  if l = DisabledLevel then "disabled"
  else if l = ErrorLevel then "error"
  else if l = WarnLevel then "warning"
  else if l = InfoLevel then "info"
  else if l = DebugLevel then "debug"
  else ""

/-- Modelled from the spec: `Level.Validate` is exercised by the tests
(`TestLevelValidate`) but its implementation is not among the source
files.  Spec §4.1: succeeds for the five defined levels; fails for Invalid
and for any other out-of-range value, with an error naming the invalid
numeric value. -/
def Validate (l : Level) : Option String :=
  if l ∈ validLevels then none
  else some ("invalid log level: " ++ toString l)

/-- The write destinations of the fan-out: the persistent sink (`w`),
standard output and standard error. -/
inductive Dest
  | sink
  | stdout
  | stderr
  deriving DecidableEq

/-- Whether a destination is a console stream rather than the persistent
sink. -/
def Dest.isConsole : Dest → Bool
  | Dest.sink => false
  | Dest.stdout => true
  | Dest.stderr => true

/-- A `log.Logger` as built by `New`: its severity tag (Go `log.New`
prefix argument) and the destinations of its writer (Go `io.MultiWriter`).
All writers are created with flags `log.Ldate | log.Ltime`, so every line
carries a timestamp; the timestamp shows up as the `time` field of the
events below. -/
structure LogWriter where
  tag : String
  dests : List Dest
  deriving DecidableEq

/-- One observable write: the line `tag ++ time ++ " " ++ body` sent to
destination `dest`. -/
structure Event where
  dest : Dest
  tag : String
  time : String
  body : String
  deriving DecidableEq

/-- Whether an event went to a console stream. -/
def Event.isConsole (e : Event) : Bool := e.dest.isConsole

/-- Ambient environment of a logging call: the process id (`os.Getpid`),
the current date+time as rendered by the `log` package, and the result of
`runtime.Caller(3)` (`none` when the call site cannot be determined). -/
structure Env where
  pid : Nat
  now : String
  callSite : Option (String × Nat)
  deriving DecidableEq

/-- Go struct `logger`.  `wPresent` records whether the `w io.Writer`
argument was non-nil; the per-severity `*log.Logger` fields are
`Option LogWriter`, with `none` for Go nil. -/
structure logger where
  level : Level
  wPresent : Bool
  verbose : Bool
  debug : Option LogWriter
  info : Option LogWriter
  warn : Option LogWriter
  error : Option LogWriter
  fatal : Option LogWriter
  deriving DecidableEq

/-- Go: `storage := w; if storage == nil { storage = ioutil.Discard }`.
The destination list contributed by the persistent sink; `ioutil.Discard`
contributes no observable write. -/
def storageDests (wPresent : Bool) : List Dest :=
  if wPresent then [Dest.sink] else []

/-- Go `New`.  Mirrors the construction control flow: the level string is
parsed first and an error returns the zero-valued logger (level 0, all
writers nil) together with the error — before any writer, including the
fatal one, is built.  On success the fatal writer is wired
unconditionally, then the per-severity writers down to the configured
minimum level, leaving the rest nil. -/
def New (wPresent : Bool) (level : String) (verbose : Bool) :
    logger × Option String :=
  let l0 : logger :=
    { level := DisabledLevel, wPresent := wPresent, verbose := verbose,
      debug := none, info := none, warn := none, error := none, fatal := none }
  match levelOfStr level with
  | (_, some e) => (l0, some e)
  | (lv, none) =>
    let storage := storageDests wPresent
    let multiOut := storage ++ [Dest.stdout]
    let multiErr := storage ++ [Dest.stderr]
    let l1 := { l0 with level := lv, fatal := some ⟨"FATAL: ", multiErr⟩ }
    if lv = DisabledLevel then (l1, none) else
    let l2 := { l1 with error := some ⟨"ERROR: ", multiErr⟩ }
    if lv = ErrorLevel then (l2, none) else
    let l3 := { l2 with warn := some ⟨"WARN:  ", multiErr⟩ }
    if lv = WarnLevel then (l3, none) else
    let l4 := { l3 with info := some ⟨"INFO:  ", if verbose then multiOut else storage⟩ }
    if lv = InfoLevel then (l4, none) else
    let l5 := { l4 with debug := some ⟨"DEBUG: ", if verbose then multiOut else storage⟩ }
    (l5, none)

/-- The call-site text: `"<file>:<line> "`, or `"???:0 "` when the call
site cannot be determined (Go `caller`, inner part). -/
def callerText : Option (String × Nat) → String
  | some (file, line) => file ++ ":" ++ toString line ++ " "
  | none => "???:0 "

/-- Go `pid()`: `"[<pid>] "` when the configured level is Debug, else the
empty string. -/
def pidStr (l : logger) (env : Env) : String :=
  if l.level = DebugLevel then "[" ++ toString env.pid ++ "] " else ""

/-- Go `caller()`: the call-site text when the configured level is Debug,
else the empty string. -/
def callerStr (l : logger) (env : Env) : String :=
  if l.level = DebugLevel then callerText env.callSite else ""

/-- Go `compose`: `fmt.Sprint(pid, caller, msg...)`.  With the message
arguments modelled as already-rendered strings, `fmt.Sprint` inserts no
separators between adjacent strings, so this is concatenation in order:
pid, call site, body. -/
def compose (l : logger) (env : Env) (msg : List String) : String :=
  pidStr l env ++ callerStr l env ++ String.join msg

/-- Go `composef`: `fmt.Sprint(pid, caller, fmt.Sprintf(format, msg...))`;
`body` stands for the result of the inner `Sprintf`. -/
def composef (l : logger) (env : Env) (body : String) : String :=
  pidStr l env ++ callerStr l env ++ body

/-- One output call of a `log.Logger`: a line per destination of the
writer, carrying its severity tag and the current timestamp. -/
def emit (wr : LogWriter) (env : Env) (body : String) : List Event :=
  wr.dests.map fun d => { dest := d, tag := wr.tag, time := env.now, body := body }

/-- Go `(*logger).Fatal`: if the fatal writer is nil, return doing
nothing; otherwise write the composed line and exit with status 1
(`log.Logger.Fatal` is Print followed by `os.Exit(1)`).  The second
component is the exit status, `none` when the process continues. -/
def logger.Fatal (l : logger) (env : Env) (msg : List String) :
    List Event × Option Nat :=
  match l.fatal with
  | none => ([], none)
  | some wr => (emit wr env (compose l env msg), some 1)

/-- Go `(*logger).Fatalf`. -/
def logger.Fatalf (l : logger) (env : Env) (body : String) :
    List Event × Option Nat :=
  match l.fatal with
  | none => ([], none)
  | some wr => (emit wr env (composef l env body), some 1)

/-- Go `(*logger).Error`: `if l.level < ErrorLevel || l.error == nil {
return }`, else print the composed line. -/
def logger.Error (l : logger) (env : Env) (msg : List String) : List Event :=
  if l.level < ErrorLevel then [] else
  match l.error with
  | none => []
  | some wr => emit wr env (compose l env msg)

/-- Go `(*logger).Errorf`. -/
def logger.Errorf (l : logger) (env : Env) (body : String) : List Event :=
  if l.level < ErrorLevel then [] else
  match l.error with
  | none => []
  | some wr => emit wr env (composef l env body)

/-- Go `(*logger).Warn`. -/
def logger.Warn (l : logger) (env : Env) (msg : List String) : List Event :=
  if l.level < WarnLevel then [] else
  match l.warn with
  | none => []
  | some wr => emit wr env (compose l env msg)

/-- Go `(*logger).Warnf`. -/
def logger.Warnf (l : logger) (env : Env) (body : String) : List Event :=
  if l.level < WarnLevel then [] else
  match l.warn with
  | none => []
  | some wr => emit wr env (composef l env body)

/-- Go `(*logger).Info`. -/
def logger.Info (l : logger) (env : Env) (msg : List String) : List Event :=
  if l.level < InfoLevel then [] else
  match l.info with
  | none => []
  | some wr => emit wr env (compose l env msg)

/-- Go `(*logger).Infof`. -/
def logger.Infof (l : logger) (env : Env) (body : String) : List Event :=
  if l.level < InfoLevel then [] else
  match l.info with
  | none => []
  | some wr => emit wr env (composef l env body)

/-- Go `(*logger).Debug`. -/
def logger.Debug (l : logger) (env : Env) (msg : List String) : List Event :=
  if l.level < DebugLevel then [] else
  match l.debug with
  | none => []
  | some wr => emit wr env (compose l env msg)

/-- Go `(*logger).Debugf`. -/
def logger.Debugf (l : logger) (env : Env) (body : String) : List Event :=
  if l.level < DebugLevel then [] else
  match l.debug with
  | none => []
  | some wr => emit wr env (composef l env body)

end Clog

namespace Clog

/-- Claim C1: round-trip of level string conversion.  For each of the five
valid levels, converting the level to its string and parsing that string
back yields the same level with no error; and for each of the five valid
level strings, parsing succeeds and converting the parsed level back gives
the same string. -/
theorem levelString_levelOfStr_roundtrip :
    (∀ l ∈ validLevels, levelOfStr (levelString l) = (l, none)) ∧
    (∀ s ∈ (["disabled", "error", "warning", "info", "debug"] : List String),
      (levelOfStr s).2 = none ∧ levelString (levelOfStr s).1 = s) := by
  constructor
  · intro l hl
    simp only [validLevels, List.mem_cons, List.not_mem_nil, or_false] at hl
    rcases hl with h | h | h | h | h <;> subst h <;> rfl
  · intro s hs
    simp only [List.mem_cons, List.not_mem_nil, or_false] at hs
    rcases hs with h | h | h | h | h <;> subst h <;> exact ⟨rfl, rfl⟩

/-- Claim C1 witness: the round-trip at the concrete level `WarnLevel` and
the concrete string `"debug"`. -/
theorem levelString_levelOfStr_roundtrip_witness :
    levelOfStr (levelString WarnLevel) = (WarnLevel, none) ∧
    levelString (levelOfStr "debug").1 = "debug" := by
  refine ⟨levelString_levelOfStr_roundtrip.1 WarnLevel (by decide), ?_⟩
  exact (levelString_levelOfStr_roundtrip.2 "debug" (by decide)).2

/-- Claim C3, counterexample: `levelOfStr "nonsense"` does not return the
Invalid sentinel; it returns the default `InfoLevel` (together with the
descriptive error). -/
theorem levelOfStr_nonsense_not_invalid :
    (levelOfStr "nonsense").1 = InfoLevel ∧
    (levelOfStr "nonsense").1 ≠ InvalidLevel ∧
    (levelOfStr "nonsense").2 = some (levelErrMsg "nonsense") := by
  refine ⟨rfl, ?_, rfl⟩
  decide

/-- Claim C3, amended: for every input string other than the five exact
literals (including the empty string), `levelOfStr` returns the default
level `InfoLevel` — not the Invalid sentinel — together with a descriptive
error that names the invalid input and enumerates the valid options. -/
theorem levelOfStr_invalid_input (s : String)
    (h1 : s ≠ "disabled") (h2 : s ≠ "error") (h3 : s ≠ "warning")
    (h4 : s ≠ "info") (h5 : s ≠ "debug") :
    levelOfStr s = (InfoLevel, some (levelErrMsg s)) := by
  simp [levelOfStr, h1, h2, h3, h4, h5]

/-- Claim C3 witness: the amended behaviour at the empty string. -/
theorem levelOfStr_invalid_input_witness :
    levelOfStr "" = (InfoLevel, some (levelErrMsg "")) :=
  levelOfStr_invalid_input "" (by decide) (by decide) (by decide) (by decide)
    (by decide)

/-- Claim C8: `levelString` is total; it returns the exact level string for
each of the five valid levels and the empty string for the Invalid
sentinel and for every other out-of-range integer value (e.g. 999). -/
theorem levelString_total :
    levelString DisabledLevel = "disabled" ∧
    levelString ErrorLevel = "error" ∧
    levelString WarnLevel = "warning" ∧
    levelString InfoLevel = "info" ∧
    levelString DebugLevel = "debug" ∧
    levelString InvalidLevel = "" ∧
    ∀ l : Level, l ∉ validLevels → levelString l = "" := by
  refine ⟨rfl, rfl, rfl, rfl, rfl, rfl, ?_⟩
  intro l hl

  simp only [validLevels, List.mem_cons, List.not_mem_nil, or_false, not_or] at hl
  obtain ⟨h1, h2, h3, h4, h5⟩ := hl
  simp [levelString, h1, h2, h3, h4, h5]

/-- Claim C8 witness: the out-of-range value 999 maps to the empty
string. -/
theorem levelString_total_witness : levelString (999 : Level) = "" :=
  levelString_total.2.2.2.2.2.2 999 (by decide)

/-- Claim C9: `Validate` succeeds (returns `none`) for exactly the five
defined levels, and fails with an error naming the invalid numeric value
for the Invalid sentinel and for every other out-of-range value. -/
theorem Validate_exact :
    (∀ l : Level, Validate l = none ↔ l ∈ validLevels) ∧
    Validate InvalidLevel = some "invalid log level: -1" ∧
    ∀ l : Level, l ∉ validLevels →
      Validate l = some ("invalid log level: " ++ toString l) := by
  refine ⟨?_, rfl, ?_⟩
  · intro l
    constructor
    · intro h
      by_contra hc
      simp [Validate, hc] at h
    · intro h
      simp [Validate, h]
  · intro l hl
    simp [Validate, hl]

/-- Claim C9 witness: `Validate` fails at the out-of-range value 999,
naming it, and succeeds at `DebugLevel`. -/
theorem Validate_exact_witness :
    Validate (999 : Level) = some "invalid log level: 999" ∧
    Validate DebugLevel = none := by
  constructor
  · exact Validate_exact.2.2 999 (by decide)
  · exact (Validate_exact.1 DebugLevel).2 (by decide)

/-- Parsing succeeds only on the five exact literals. -/
theorem levelOfStr_none_cases (s : String) (h : (levelOfStr s).2 = none) :
    s = "disabled" ∨ s = "error" ∨ s = "warning" ∨ s = "info" ∨ s = "debug" := by
  by_cases h1 : s = "disabled"
  · exact Or.inl h1
  by_cases h2 : s = "error"
  · exact Or.inr (Or.inl h2)
  by_cases h3 : s = "warning"
  · exact Or.inr (Or.inr (Or.inl h3))
  by_cases h4 : s = "info"
  · exact Or.inr (Or.inr (Or.inr (Or.inl h4)))
  by_cases h5 : s = "debug"
  · exact Or.inr (Or.inr (Or.inr (Or.inr h5)))
  simp [levelOfStr, h1, h2, h3, h4, h5] at h

/-- The error component of `New` is exactly the error component of the
level parse. -/
theorem New_snd (w : Bool) (s : String) (v : Bool) :
    (New w s v).2 = (levelOfStr s).2 := by
  rcases h : levelOfStr s with ⟨lv, err⟩
  cases err with
  | none => simp only [New, h] ; split_ifs <;> rfl
  | some e => simp [New, h]

/-- The destinations of emitted events are the destinations of the
writer. -/
theorem emit_map_dest (wr : LogWriter) (env : Env) (body : String) :
    (emit wr env body).map Event.dest = wr.dests := by
  rw [emit, List.map_map]
  exact List.map_id _

/-- Claim C6: each of Debug/Info/Warn/Error (and its formatted variant) is
a no-op — emits no event — whenever the configured minimum level is
strictly below that severity or the corresponding writer was never
constructed. -/
theorem log_noop_below_level (l : logger) (env : Env) (msg : List String)
    (body : String) :
    ((l.level < ErrorLevel ∨ l.error = none) →
      l.Error env msg = [] ∧ l.Errorf env body = []) ∧
    ((l.level < WarnLevel ∨ l.warn = none) →
      l.Warn env msg = [] ∧ l.Warnf env body = []) ∧
    ((l.level < InfoLevel ∨ l.info = none) →
      l.Info env msg = [] ∧ l.Infof env body = []) ∧
    ((l.level < DebugLevel ∨ l.debug = none) →
      l.Debug env msg = [] ∧ l.Debugf env body = []) := by
  refine ⟨?_, ?_, ?_, ?_⟩ <;> rintro (h | h)
  · simp [logger.Error, logger.Errorf, h]
  · rw [logger.Error, logger.Errorf, h] ; split_ifs <;> simp
  · simp [logger.Warn, logger.Warnf, h]
  · rw [logger.Warn, logger.Warnf, h] ; split_ifs <;> simp
  · simp [logger.Info, logger.Infof, h]
  · rw [logger.Info, logger.Infof, h] ; split_ifs <;> simp
  · simp [logger.Debug, logger.Debugf, h]
  · rw [logger.Debug, logger.Debugf, h] ; split_ifs <;> simp

/-- Claim C6 witness: on the logger constructed at level `"disabled"` (all
non-fatal writers nil), every non-fatal call emits nothing. -/
theorem log_noop_below_level_witness :
    ((New true "disabled" false).1.Error ⟨7, "t", none⟩ ["m"] = [] ∧
      (New true "disabled" false).1.Errorf ⟨7, "t", none⟩ "m" = []) ∧
    ((New true "disabled" false).1.Warn ⟨7, "t", none⟩ ["m"] = [] ∧
      (New true "disabled" false).1.Warnf ⟨7, "t", none⟩ "m" = []) ∧
    ((New true "disabled" false).1.Info ⟨7, "t", none⟩ ["m"] = [] ∧
      (New true "disabled" false).1.Infof ⟨7, "t", none⟩ "m" = []) ∧
    ((New true "disabled" false).1.Debug ⟨7, "t", none⟩ ["m"] = [] ∧
      (New true "disabled" false).1.Debugf ⟨7, "t", none⟩ "m" = []) := by
  have h := log_noop_below_level (New true "disabled" false).1 ⟨7, "t", none⟩
    ["m"] "m"
  exact ⟨h.1 (Or.inr rfl), h.2.1 (Or.inr rfl), h.2.2.1 (Or.inr rfl),
    h.2.2.2 (Or.inr rfl)⟩

/-- Claim C7: the pid and call-site prefixes are prepended exactly when
the configured minimum level is Debug (independently of the per-call
severity); when present they appear in the order pid, call site, message
body, and an undetermined call site is rendered as `"???:0 "`. -/
theorem compose_enrichment (l : logger) (env : Env) (msg : List String)
    (body : String) :
    (l.level = DebugLevel →
      compose l env msg =
        "[" ++ toString env.pid ++ "] " ++ callerText env.callSite ++
          String.join msg ∧
      composef l env body =
        "[" ++ toString env.pid ++ "] " ++ callerText env.callSite ++ body ∧
      (env.callSite = none → callerText env.callSite = "???:0 ")) ∧
    (l.level ≠ DebugLevel →
      compose l env msg = String.join msg ∧ composef l env body = body) := by
  constructor
  · intro h
    refine ⟨?_, ?_, ?_⟩
    · simp [compose, pidStr, callerStr, h, String.append_assoc]
    · simp [composef, pidStr, callerStr, h, String.append_assoc]
    · intro hc ; simp [callerText, hc]
  · intro h
    constructor
    · simp [compose, pidStr, callerStr, h]
    · simp [composef, pidStr, callerStr, h]

/-- Claim C7 witness: on the Debug-configured logger with an undetermined
call site, the composed message carries pid then `"???:0 "` then the
body; on the Info-configured logger the same call carries neither
prefix. -/
theorem compose_enrichment_witness :
    compose (New true "debug" true).1 ⟨42, "t", none⟩ ["hi"] =
      "[" ++ toString (42 : Nat) ++ "] " ++ callerText none ++
        String.join ["hi"] ∧
    callerText (none : Option (String × Nat)) = "???:0 " ∧
    compose (New true "info" true).1 ⟨42, "t", none⟩ ["hi"] =
      String.join ["hi"] := by
  refine ⟨?_, ?_, ?_⟩
  · exact ((compose_enrichment (New true "debug" true).1 ⟨42, "t", none⟩
      ["hi"] "x").1 (by decide)).1
  · exact ((compose_enrichment (New true "debug" true).1 ⟨42, "t", none⟩
      ["hi"] "x").1 (by decide)).2.2 rfl
  · exact ((compose_enrichment (New true "info" true).1 ⟨42, "t", none⟩
      ["hi"] "x").2 (by decide)).1

/-- Claim C2, counterexample: at the concrete input `New(sink,
"bogus-level", false)` the construction error is non-nil, but the fatal
writer of the returned logger is nil, so Fatal and Fatalf emit nothing
and do not terminate the process — contrary to the claim that they still
write and terminate. -/
theorem New_badlevel_fatal_noop_cex :
    (New true "bogus-level" false).2 = some (levelErrMsg "bogus-level") ∧
    (New true "bogus-level" false).1.fatal = none ∧
    (New true "bogus-level" false).1.Fatal ⟨7, "t", none⟩ ["boom"] =
      ([], none) ∧
    (New true "bogus-level" false).1.Fatalf ⟨7, "t", none⟩ "boom" =
      ([], none) :=
  ⟨rfl, rfl, rfl, rfl⟩

/-- Claim C2, amended: when the level string does not parse, `New` returns
a non-nil error together with a Logger whose fatal writer was never
constructed; Fatal and Fatalf on that logger are safe to call but are
no-ops — they write nothing and do not terminate the process. -/
theorem New_badlevel_fatal_noop (w : Bool) (s : String) (v : Bool)
    (env : Env) (msg : List String) (body : String)
    (h : (levelOfStr s).2 ≠ none) :
    (New w s v).2 = (levelOfStr s).2 ∧
    (New w s v).2 ≠ none ∧
    (New w s v).1.fatal = none ∧
    (New w s v).1.Fatal env msg = ([], none) ∧
    (New w s v).1.Fatalf env body = ([], none) := by
  rcases hp : levelOfStr s with ⟨lv, err⟩
  cases err with
  | none => rw [hp] at h ; simp at h
  | some e =>
    rw [hp] at h
    refine ⟨?_, ?_, ?_, ?_, ?_⟩ <;>
      simp [New, hp, logger.Fatal, logger.Fatalf]

/-- Claim C2 witness: the amended behaviour at the concrete call
`New(sink, "bogus-level", false)`. -/
theorem New_badlevel_fatal_noop_witness :
    (levelOfStr "bogus-level").2 ≠ none ∧
    (New true "bogus-level" false).2 ≠ none ∧
    (New true "bogus-level" false).1.Fatal ⟨7, "t", none⟩ ["boom"] =
      ([], none) := by
  have h := New_badlevel_fatal_noop true "bogus-level" false ⟨7, "t", none⟩
    ["boom"] "boom" (by decide)
  exact ⟨by decide, h.2.1, h.2.2.2.1⟩

/-- On every successful construction the fatal writer is wired to the
persistent sink (when present) plus standard error, whatever the
configured level. -/
theorem New_fatal_of_ok (w : Bool) (s : String) (v : Bool)
    (h : (levelOfStr s).2 = none) :
    (New w s v).1.fatal =
      some ⟨"FATAL: ", storageDests w ++ [Dest.stderr]⟩ := by
  rcases levelOfStr_none_cases s h with h' | h' | h' | h' | h' <;> subst h' <;>
    simp [New, levelOfStr, DisabledLevel, ErrorLevel, WarnLevel, InfoLevel,
      DebugLevel]

/-- Claim C4: on a successfully constructed logger — at any configured
level, including Disabled — Fatal and Fatalf write the composed message,
tagged `"FATAL: "` with the current timestamp, to the persistent sink
(when present) and standard error, and then exit the process with status
1; the configured minimum level never suppresses them. -/
theorem New_Fatal_always (w : Bool) (s : String) (v : Bool) (env : Env)
    (msg : List String) (body : String) (h : (New w s v).2 = none) :
    ((New w s v).1.Fatal env msg).2 = some 1 ∧
    (((New w s v).1.Fatal env msg).1).map Event.dest =
      storageDests w ++ [Dest.stderr] ∧
    (∀ e ∈ ((New w s v).1.Fatal env msg).1,
      e.tag = "FATAL: " ∧ e.time = env.now ∧
        e.body = compose (New w s v).1 env msg) ∧
    ((New w s v).1.Fatalf env body).2 = some 1 ∧
    (((New w s v).1.Fatalf env body).1).map Event.dest =
      storageDests w ++ [Dest.stderr] := by
  rw [New_snd] at h
  have hf := New_fatal_of_ok w s v h
  refine ⟨?_, ?_, ?_, ?_, ?_⟩
  · simp [logger.Fatal, hf]
  · simp [logger.Fatal, hf, emit_map_dest]
  · intro e he
    simp only [logger.Fatal, hf, emit, List.mem_map] at he
    obtain ⟨d, _, rfl⟩ := he
    exact ⟨rfl, rfl, rfl⟩
  · simp [logger.Fatalf, hf]
  · simp [logger.Fatalf, hf, emit_map_dest]

/-- Claim C4 witness: on the logger constructed at level `"disabled"`, a
Fatal call still writes to the sink and standard error and exits with
status 1. -/
theorem New_Fatal_always_witness :
    ((New true "disabled" false).1.Fatal ⟨7, "t", none⟩ ["m"]).2 = some 1 ∧
    (((New true "disabled" false).1.Fatal ⟨7, "t", none⟩ ["m"]).1).map
      Event.dest = [Dest.sink, Dest.stderr] := by
  have h := New_Fatal_always true "disabled" false ⟨7, "t", none⟩ ["m"] "m"
    rfl
  refine ⟨h.1, ?_⟩
  have h2 := h.2.1
  simpa [storageDests] using h2

/-- Claim C5: the destination fan-out is asymmetric in the verbosity
flag.  On a successfully constructed logger, whenever a severity is
enabled, Error and Warn calls write to the persistent sink (when present)
and standard error regardless of the verbose flag, while Info and Debug
calls write to the persistent sink and are mirrored to standard output
exactly when the verbose flag is set; a Debug call under a configured
level strictly below Debug writes nothing. -/
theorem New_fanout (w : Bool) (s : String) (v : Bool) (env : Env)
    (msg : List String) (h : (New w s v).2 = none) :
    (ErrorLevel ≤ (New w s v).1.level →
      ((New w s v).1.Error env msg).map Event.dest =
        storageDests w ++ [Dest.stderr]) ∧
    (WarnLevel ≤ (New w s v).1.level →
      ((New w s v).1.Warn env msg).map Event.dest =
        storageDests w ++ [Dest.stderr]) ∧
    (InfoLevel ≤ (New w s v).1.level →
      ((New w s v).1.Info env msg).map Event.dest =
        storageDests w ++ (if v then [Dest.stdout] else [])) ∧
    (DebugLevel ≤ (New w s v).1.level →
      ((New w s v).1.Debug env msg).map Event.dest =
        storageDests w ++ (if v then [Dest.stdout] else [])) ∧
    ((New w s v).1.level < DebugLevel → (New w s v).1.Debug env msg = []) := by
  rw [New_snd] at h
  rcases levelOfStr_none_cases s h with h' | h' | h' | h' | h' <;> subst h' <;>
    cases w <;> cases v <;>
    refine ⟨?_, ?_, ?_, ?_, ?_⟩ <;> intro hlev <;>
    first
      | exact absurd hlev (by decide)
      | rfl

/-- Claim C5 witness: at configured level Info with verbose off and a
real sink, an Info call writes to the sink only, a Debug call writes
nothing, and an Error call writes to the sink and standard error. -/
theorem New_fanout_witness :
    ((New true "info" false).1.Info ⟨7, "t", none⟩ ["m"]).map Event.dest =
      [Dest.sink] ∧
    (New true "info" false).1.Debug ⟨7, "t", none⟩ ["m"] = [] ∧
    ((New true "info" false).1.Error ⟨7, "t", none⟩ ["m"]).map Event.dest =
      [Dest.sink, Dest.stderr] := by
  have h := New_fanout true "info" false ⟨7, "t", none⟩ ["m"] rfl
  refine ⟨?_, ?_, ?_⟩
  · have h2 := h.2.2.1 (by decide)
    simpa [storageDests] using h2
  · exact h.2.2.2.2 (by decide)
  · have h2 := h.1 (by decide)
    simpa [storageDests] using h2

/-- Claim C10: constructing with an absent (nil) sink and a valid level
string succeeds; writes destined for the persistent sink are silently
discarded, and the console side of the fan-out is exactly what it would
be with a real sink: every operation emits precisely the console part of
the events it would emit with a sink present, and Fatal still writes its
line to standard error and exits identically. -/
theorem New_nil_sink (s : String) (v : Bool) (env : Env)
    (msg : List String) (h : (levelOfStr s).2 = none) :
    (New false s v).2 = none ∧
    (New false s v).1.Error env msg =
      ((New true s v).1.Error env msg).filter Event.isConsole ∧
    (New false s v).1.Warn env msg =
      ((New true s v).1.Warn env msg).filter Event.isConsole ∧
    (New false s v).1.Info env msg =
      ((New true s v).1.Info env msg).filter Event.isConsole ∧
    (New false s v).1.Debug env msg =
      ((New true s v).1.Debug env msg).filter Event.isConsole ∧
    ((New false s v).1.Fatal env msg).1 =
      (((New true s v).1.Fatal env msg).1).filter Event.isConsole ∧
    ((New false s v).1.Fatal env msg).2 =
      ((New true s v).1.Fatal env msg).2 ∧
    (((New false s v).1.Fatal env msg).1).map Event.dest = [Dest.stderr] := by
  rcases levelOfStr_none_cases s h with h' | h' | h' | h' | h' <;> subst h' <;>
    cases v <;>
    exact ⟨rfl, rfl, rfl, rfl, rfl, rfl, rfl, rfl⟩

/-- Claim C10 witness: with no sink at level info (verbose), construction
succeeds and the Info call emits exactly the console part of the events
it would emit with a sink. -/
theorem New_nil_sink_witness :
    (New false "info" true).2 = none ∧
    (New false "info" true).1.Info ⟨7, "t", none⟩ ["m"] =
      ((New true "info" true).1.Info ⟨7, "t", none⟩ ["m"]).filter
        Event.isConsole := by
  have h := New_nil_sink "info" true ⟨7, "t", none⟩ ["m"] rfl
  exact ⟨h.1, h.2.2.2.1⟩

end Clog
